import Mathlib

/-!
Verification development for the labproject repository: a shallow embedding of
`src/pages/jordanTool/transformers/transformScatterplotData.ts` and of the
sizing / dispatch / export logic of `src/components/dataViz/index.tsx`,
together with theorems settling the specification's claims about them.

Numbers (the GraphQL metrics and DOM pixel measurements) are embedded as
rationals and naturals respectively; nullable TypeScript fields become
`Option`; the JavaScript truthiness tests performed by the code are embedded
explicitly.
-/

namespace LabProject

/-- Modelled from the spec: the GraphQL types file
(`../graphql/graphQLTypes`, not part of the excerpt) defines the nested
metrics node of a `JordanIndustry`; per the spec's data model it carries three
nullable numeric metrics `viability`, `attractiveness`, `rca`. -/
structure FactorsNode where
  viability : Option ℚ
  attractiveness : Option ℚ
  rca : Option ℚ
deriving DecidableEq

/-- Modelled from the spec: a GraphQL pagination edge wrapping a nullable
metrics node. -/
structure FactorsEdge where
  node : Option FactorsNode
deriving DecidableEq

/-- Modelled from the spec: the `factors` connection of an industry record, a
nullable list of nullable edges (the transformer tests `factors.edges` and
`factors.edges[0]` for truthiness, so both layers are nullable). -/
structure Factors where
  edges : Option (List (Option FactorsEdge))
deriving DecidableEq

/-- Modelled from the spec: an industry record with optional fields
`industryCode`, `title`, `keywords`, `description` and a nullable nested
`factors` structure. -/
structure JordanIndustry where
  industryCode : Option String
  title : Option String
  keywords : Option String
  description : Option String
  factors : Option Factors
deriving DecidableEq

/-- The payload passed to the selection callback
(`react-dropdown-tree-select`'s `TreeNode`, restricted to the two fields the
transformer populates). -/
structure TreeNode where
  value : String
  label : String
deriving DecidableEq

/-- Output point shape (`Datum` of `components/dataViz/scatterPlot`), as
populated by the transformer.  The `onClick` callback may run an arbitrary
effect; it is embedded as a function into an arbitrary result type `σ`. -/
structure ScatterPlotDatum (σ : Type) where
  label : String
  x : ℚ
  y : ℚ
  fill : String
  highlighted : Bool
  tooltipContent : String
  tooltipContentOnly : Bool
  onClick : Unit → σ

/-- The `Input` record of `transformScatterplotData.ts`. -/
structure Input (σ : Type) where
  rawDatum : List JordanIndustry
  id : String
  setSelectedIndustry : TreeNode → σ

/-- JavaScript truthiness of a nullable string: `null`/`undefined` and the
empty string are falsy. -/
def truthyString : Option String → Bool
  | none => false
  | some s => !(s == "")

/-- Value of one hexadecimal digit character. -/
def hexVal (c : Char) : Nat :=
  if c.isDigit then c.toNat - 48
  else if 'a' ≤ c ∧ c ≤ 'f' then c.toNat - 87
  else if 'A' ≤ c ∧ c ≤ 'F' then c.toNat - 55
  else 0

/-- The `rgba` helper of the `polished` library, restricted to the 7-character
hex colors the transformer uses: parses `#RRGGBB` and emits an
`rgba(r,g,b,a)` color string carrying the requested alpha. -/
def rgba (hex : String) (alpha : ℚ) : String :=
  match hex.toList with
  | ['#', r1, r2, g1, g2, b1, b2] =>
    "rgba(" ++ toString (16 * hexVal r1 + hexVal r2) ++ ","
      ++ toString (16 * hexVal g1 + hexVal g2) ++ ","
      ++ toString (16 * hexVal b1 + hexVal b2) ++ ","
      ++ toString alpha ++ ")"
  | _ => hex

/-- The access path `datum.factors.edges[0].node` with every step's
JavaScript truthiness test from the transformer's guard: `none` when
`factors` is nullish, when `edges` is nullish, when `edges[0]` is absent
(empty list) or null, or when `node` is null. -/
def firstNode (datum : JordanIndustry) : Option FactorsNode :=
  match datum.factors with
  | none => none
  | some factors =>
    match factors.edges with
    | none => none
    | some edges =>
      match edges with
      | [] => none
      | none :: _ => none
      | some edge :: _ => edge.node

/-- The transformer's guard condition: `industryCode && title && keywords &&
description && factors && factors.edges && factors.edges[0] &&
factors.edges[0].node && viability !== null && attractiveness !== null &&
rca !== null`. -/
def wellFormed (datum : JordanIndustry) : Bool :=
  truthyString datum.industryCode && truthyString datum.title &&
  truthyString datum.keywords && truthyString datum.description &&
  (match firstNode datum with
   | none => false
   | some n => n.viability.isSome && n.attractiveness.isSome && n.rca.isSome)

/-- Construction of the pushed point for a record that passed the guard
(fields read through `getD`; the defaults are never reached on guarded
records).  Mirrors the body of the `if` in `transformScatterplotData.ts`. -/
def mkDatum {σ : Type} (id : String) (setSelectedIndustry : TreeNode → σ)
    (datum : JordanIndustry) : ScatterPlotDatum σ :=
  let industryCode := datum.industryCode.getD ""
  let title := datum.title.getD ""
  let keywords := datum.keywords.getD ""
  let description := datum.description.getD ""
  let node := (firstNode datum).getD ⟨none, none, none⟩
  let color := if node.rca.getD 0 < 1 then "#46899F" else "#E0B04E"
  let x := node.viability.getD 0
  let y := node.attractiveness.getD 0
  { label := title
    x := x
    y := y
    fill := rgba color (1/2)
    highlighted := industryCode == id
    tooltipContent :=
      "<strong>Theme:</strong> " ++ description ++
      "<br /><strong>SubTheme:</strong> " ++ keywords ++
      "<br /><strong>Description:</strong> " ++ title ++
      "<br /><strong>Viability:</strong> " ++ toString x ++
      "<br /><strong>Attractiveness:</strong> " ++ toString y
    tooltipContentOnly := true
    onClick := fun _ => setSelectedIndustry { value := industryCode, label := title } }

/-- The default export of `transformScatterplotData.ts`: a `forEach` over
`rawDatum` pushing a point for each record that passes the guard. -/
def transformScatterplotData {σ : Type} (input : Input σ) :
    List (ScatterPlotDatum σ) :=
  input.rawDatum.foldl
    (fun transformedData datum =>
      if wellFormed datum then
        transformedData ++ [mkDatum input.id input.setSelectedIndustry datum]
      else
        transformedData)
    []

lemma transform_foldl_eq {σ : Type} (id : String) (cb : TreeNode → σ) :
    ∀ (l : List JordanIndustry) (acc : List (ScatterPlotDatum σ)),
      l.foldl
        (fun transformedData datum =>
          if wellFormed datum then
            transformedData ++ [mkDatum id cb datum]
          else
            transformedData)
        acc
        = acc ++ (l.filter wellFormed).map (mkDatum id cb) := by
  intro l
  induction l with
  | nil => intro acc; simp
  | cons d rest ih =>
    intro acc
    by_cases h : wellFormed d
    · simp [List.foldl_cons, h, ih]
    · simp [List.foldl_cons, h, ih]

/-- The transformer is a stable filter-map over the input sequence. -/
lemma transform_eq_filter_map {σ : Type} (input : Input σ) :
    transformScatterplotData input
      = (input.rawDatum.filter wellFormed).map
          (mkDatum input.id input.setSelectedIndustry) := by
  unfold transformScatterplotData
  simpa using transform_foldl_eq input.id input.setSelectedIndustry input.rawDatum []

/-- Predicate written from the claim's words, for comparison with the source
guard `wellFormed`: `industryCode`, `title`, `keywords`, `description` all
present and non-empty, `factors.edges` non-empty with its first edge non-null,
and that edge's node present with `viability`, `attractiveness`, `rca` all
non-null. -/
def includedSpec (d : JordanIndustry) : Prop :=
  ∃ code t kw desc factors edges e n,
    d.industryCode = some code ∧ code ≠ "" ∧
    d.title = some t ∧ t ≠ "" ∧
    d.keywords = some kw ∧ kw ≠ "" ∧
    d.description = some desc ∧ desc ≠ "" ∧
    d.factors = some factors ∧ factors.edges = some edges ∧
    edges.head? = some (some e) ∧ e.node = some n ∧
    n.viability.isSome = true ∧ n.attractiveness.isSome = true ∧
    n.rca.isSome = true

lemma truthyString_iff (o : Option String) :
    truthyString o = true ↔ ∃ s, o = some s ∧ s ≠ "" := by
  cases o with
  | none => simp [truthyString]
  | some s => simp [truthyString]

lemma firstNode_eq_some_iff (d : JordanIndustry) (n : FactorsNode) :
    firstNode d = some n ↔
      ∃ factors edges e, d.factors = some factors ∧ factors.edges = some edges ∧
        edges.head? = some (some e) ∧ e.node = some n := by
  obtain ⟨ic, t, kw, desc, fac⟩ := d
  cases fac with
  | none => simp [firstNode]
  | some f =>
    obtain ⟨oe⟩ := f
    cases oe with
    | none => simp [firstNode]
    | some es =>
      cases es with
      | nil => simp [firstNode]
      | cons o rest =>
        cases o with
        | none => simp [firstNode]
        | some e => simp [firstNode]

lemma wellFormed_iff (d : JordanIndustry) : wellFormed d = true ↔ includedSpec d := by
  constructor
  · intro h
    cases hfn : firstNode d with
    | none =>
      exfalso
      unfold wellFormed at h
      rw [hfn] at h
      simp at h
    | some n =>
      unfold wellFormed at h
      rw [hfn] at h
      simp only [Bool.and_eq_true] at h
      obtain ⟨⟨⟨⟨h1, h2⟩, h3⟩, h4⟩, ⟨hv, ha⟩, hr⟩ := h
      obtain ⟨code, hic, hcne⟩ := (truthyString_iff _).mp h1
      obtain ⟨t, ht, htne⟩ := (truthyString_iff _).mp h2
      obtain ⟨kw, hk, hkne⟩ := (truthyString_iff _).mp h3
      obtain ⟨desc, hdd, hdne⟩ := (truthyString_iff _).mp h4
      obtain ⟨factors, edges, e, hf, he, hh, hnd⟩ := (firstNode_eq_some_iff d n).mp hfn
      exact ⟨code, t, kw, desc, factors, edges, e, n, hic, hcne, ht, htne, hk, hkne,
        hdd, hdne, hf, he, hh, hnd, hv, ha, hr⟩
  · rintro ⟨code, t, kw, desc, factors, edges, e, n, hic, hcne, ht, htne, hk, hkne,
      hdd, hdne, hf, he, hh, hnd, hv, ha, hr⟩
    have hfn : firstNode d = some n :=
      (firstNode_eq_some_iff d n).mpr ⟨factors, edges, e, hf, he, hh, hnd⟩
    unfold wellFormed
    rw [hfn]
    simp [truthyString, hic, ht, hk, hdd, hcne, htne, hkne, hdne, hv, ha, hr]

lemma mkDatum_mem_transform {σ : Type} (input : Input σ) (d : JordanIndustry)
    (hd : d ∈ input.rawDatum) (hwf : wellFormed d = true) :
    mkDatum input.id input.setSelectedIndustry d ∈ transformScatterplotData input := by
  rw [transform_eq_filter_map]
  exact List.mem_map_of_mem _ (List.mem_filter.mpr ⟨hd, hwf⟩)

/-- Claim C1: a record contributes a point to the transformer's output if and
only if `industryCode`, `title`, `keywords`, `description` are all present and
non-empty, `factors.edges` is non-empty, and the first edge's node has
`viability`, `attractiveness`, `rca` all present and non-null; every other
record is silently skipped (the output is exactly the filter-map over the
records that pass, so no partial point exists and no error is raised). -/
theorem claim1_inclusion_criterion {σ : Type} (input : Input σ) (d : JordanIndustry) :
    transformScatterplotData input
      = (input.rawDatum.filter wellFormed).map
          (mkDatum input.id input.setSelectedIndustry)
    ∧ (wellFormed d = true ↔ includedSpec d) :=
  ⟨transform_eq_filter_map input, wellFormed_iff d⟩

/-- Claim C4: the transformer is a stable filter-map over the input sequence,
so output length is at most input length, order is preserved, and no
aggregation, deduplication or sorting occurs (duplicate records each yield
their own point through the pointwise map). -/
theorem claim4_stable_filter_map {σ : Type} (input : Input σ) :
    transformScatterplotData input
      = (input.rawDatum.filter wellFormed).map
          (mkDatum input.id input.setSelectedIndustry)
    ∧ (transformScatterplotData input).length ≤ input.rawDatum.length := by
  refine ⟨transform_eq_filter_map input, ?_⟩
  rw [transform_eq_filter_map]
  simpa using List.length_filter_le wellFormed input.rawDatum

/-- Claim C2: an included record's point has fill `rgba(base, 0.5)` where the
base color is `#46899F` when the first edge's node `rca < 1` and `#E0B04E`
when `rca >= 1`; in particular `rca = 1` selects `#E0B04E`.  The record's
point does appear in the transformer's output. -/
theorem claim2_fill_rule {σ : Type} (input : Input σ) (d : JordanIndustry)
    (n : FactorsNode) (r : ℚ) (hwf : wellFormed d = true)
    (hn : firstNode d = some n) (hr : n.rca = some r) :
    (mkDatum input.id input.setSelectedIndustry d).fill
        = rgba (if r < 1 then "#46899F" else "#E0B04E") (1/2)
    ∧ (1 ≤ r → (mkDatum input.id input.setSelectedIndustry d).fill
        = rgba "#E0B04E" (1/2))
    ∧ (d ∈ input.rawDatum →
        mkDatum input.id input.setSelectedIndustry d ∈ transformScatterplotData input) := by
  have hfill : (mkDatum input.id input.setSelectedIndustry d).fill
      = rgba (if r < 1 then "#46899F" else "#E0B04E") (1/2) := by
    simp [mkDatum, hn, hr]
  refine ⟨hfill, ?_, fun hd => mkDatum_mem_transform input d hd hwf⟩
  intro h1
  rw [hfill, if_neg (not_lt.mpr h1)]

/-- Claim C3: an included record's point has `highlighted = true` exactly when
the record's `industryCode` is string-equal to the `id` passed to the
transform; and the record's point does appear in the transformer's output. -/
theorem claim3_highlighted_iff {σ : Type} (input : Input σ) (d : JordanIndustry)
    (hwf : wellFormed d = true) :
    ((mkDatum input.id input.setSelectedIndustry d).highlighted = true
        ↔ d.industryCode = some input.id)
    ∧ (d ∈ input.rawDatum →
        mkDatum input.id input.setSelectedIndustry d ∈ transformScatterplotData input) := by
  refine ⟨?_, fun hd => mkDatum_mem_transform input d hd hwf⟩
  have h1 : truthyString d.industryCode = true := by
    unfold wellFormed at hwf
    simp only [Bool.and_eq_true] at hwf
    exact hwf.1.1.1.1
  obtain ⟨code, hcode, hne⟩ := (truthyString_iff _).mp h1
  simp [mkDatum, hcode]

/-- Claim C9: the tooltip markup cross-wires its labels against the record's
fields: the Theme label is followed by `description`, the SubTheme label by
`keywords`, the Description label by `title`, and the Viability and
Attractiveness labels by the point's `x` and `y` metric values. -/
theorem claim9_tooltip_cross_wiring {σ : Type} (id : String) (cb : TreeNode → σ)
    (d : JordanIndustry) (t kw desc : String) (n : FactorsNode) (x y : ℚ)
    (ht : d.title = some t) (hk : d.keywords = some kw)
    (hdd : d.description = some desc) (hn : firstNode d = some n)
    (hx : n.viability = some x) (hy : n.attractiveness = some y) :
    (mkDatum id cb d).x = x ∧ (mkDatum id cb d).y = y ∧
    (mkDatum id cb d).tooltipContent =
      "<strong>Theme:</strong> " ++ desc ++
      "<br /><strong>SubTheme:</strong> " ++ kw ++
      "<br /><strong>Description:</strong> " ++ t ++
      "<br /><strong>Viability:</strong> " ++ toString x ++
      "<br /><strong>Attractiveness:</strong> " ++ toString y := by
  refine ⟨?_, ?_, ?_⟩ <;> simp [mkDatum, ht, hk, hdd, hn, hx, hy]

/-- A scatter-plot point with its `onClick` callback erased: the fields whose
values the transform is required to reproduce deterministically. -/
structure ScatterPlotDatumCore where
  label : String
  x : ℚ
  y : ℚ
  fill : String
  highlighted : Bool
  tooltipContent : String
  tooltipContentOnly : Bool
deriving DecidableEq

/-- Erase the `onClick` callback from a point. -/
def sansOnClick {σ : Type} (p : ScatterPlotDatum σ) : ScatterPlotDatumCore :=
  { label := p.label, x := p.x, y := p.y, fill := p.fill,
    highlighted := p.highlighted, tooltipContent := p.tooltipContent,
    tooltipContentOnly := p.tooltipContentOnly }

/-- Claim C10: two calls of the transform on the same record list and the same
selected id produce point lists equal in every field except the `onClick`
callback — here even when the two calls carry different selection callbacks
(so in particular when they carry the same one). -/
theorem claim10_idempotent_up_to_callback {σ τ : Type}
    (rawDatum : List JordanIndustry) (id : String)
    (cb1 : TreeNode → σ) (cb2 : TreeNode → τ) :
    (transformScatterplotData ⟨rawDatum, id, cb1⟩).map sansOnClick
      = (transformScatterplotData ⟨rawDatum, id, cb2⟩).map sansOnClick := by
  rw [transform_eq_filter_map, transform_eq_filter_map]
  simp only [List.map_map]
  rfl

/-! Embedding of `src/components/dataViz/index.tsx`.  The chart-drawing
primitives (`createScatterPlot`, `createBarChart`, `createRadarChart`) and the
image-download utility are external black boxes; the embedding records which
primitive the render effect invokes and the size it is given, and the
width/height/title arguments handed to `downloadImage`.  The `vizType` enum is
a TypeScript string enum, so tags are embedded as their string values; DOM
`clientWidth`/`clientHeight` measurements are naturals. -/

/-- A container measurement: `clientWidth` and `clientHeight` of the sizing
node. -/
structure ChartSize where
  width : Nat
  height : Nat
deriving DecidableEq

/-- Which external chart-drawing primitive the render effect invoked, and the
size argument it received. -/
inductive DrawCall where
  | scatter (size : ChartSize)
  | bar (size : ChartSize)
  | radar (size : ChartSize)
deriving DecidableEq

/-- The size argument carried by a draw call. -/
def DrawCall.size : DrawCall → ChartSize
  | .scatter s => s
  | .bar s => s
  | .radar s => s

/-- The render `useEffect` of `DataViz`: runs only when the svg, sizing and
tooltip refs are all attached; dispatches on `props.vizType`
(`"ScatterPlot"`, `"BarChart"`, `"RadarChart"`); scatter and bar receive the
container box, radar receives a square on the smaller container side; any
other tag draws nothing.  `none` means no drawing primitive is invoked. -/
def renderEffect (vizType : String) (svgNodeAttached tooltipNodeAttached : Bool)
    (sizingNode : Option ChartSize) : Option DrawCall :=
  if svgNodeAttached && sizingNode.isSome && tooltipNodeAttached then
    match sizingNode with
    | none => none
    | some sizing =>
      if vizType == "ScatterPlot" then
        some (.scatter ⟨sizing.width, sizing.height⟩)
      else if vizType == "BarChart" then
        some (.bar ⟨sizing.width, sizing.height⟩)
      else if vizType == "RadarChart" then
        if sizing.width > sizing.height then
          some (.radar ⟨sizing.height, sizing.height⟩)
        else
          some (.radar ⟨sizing.width, sizing.width⟩)
      else none
  else none

/-- The arguments `handleDownloadImage` passes to the external `downloadImage`
utility (the svg handle aside): optional width and height, and a title. -/
structure DownloadCall where
  width : Option Nat
  height : Option Nat
  title : String
deriving DecidableEq

/-- `handleDownloadImage` of `DataViz`: with `highResMultiplier = 3`, a radar
chart with an attached sizing node exports at three times the min-square side
(computed unconditionally); every other case exports at three times the
container box, leaving a dimension undefined when the sizing node is missing
or that dimension measures zero (JavaScript truthiness of `clientWidth` /
`clientHeight`); the title falls back to `"chart"`. -/
def handleDownloadImage (vizType : String) (sizingNode : Option ChartSize)
    (chartTitle : Option String) : DownloadCall :=
  let highResMultiplier := 3
  let wh : Option Nat × Option Nat :=
    match sizingNode with
    | some sizing =>
      if vizType == "RadarChart" then
        if sizing.width > sizing.height then
          (some (sizing.height * highResMultiplier), some (sizing.height * highResMultiplier))
        else
          (some (sizing.width * highResMultiplier), some (sizing.width * highResMultiplier))
      else
        ((if sizing.width == 0 then none else some (sizing.width * highResMultiplier)),
         (if sizing.height == 0 then none else some (sizing.height * highResMultiplier)))
    | none => (none, none)
  { width := wh.1, height := wh.2, title := chartTitle.getD "chart" }

/-- Claim C5: with all refs attached, the radar branch of the render effect
passes the drawing primitive a square whose side is the smaller of the
container's width and height; in particular an 800x400 container yields a
400x400 square. -/
theorem claim5_radar_min_square (sizing : ChartSize) :
    renderEffect "RadarChart" true true (some sizing)
        = some (.radar ⟨min sizing.width sizing.height, min sizing.width sizing.height⟩)
    ∧ renderEffect "RadarChart" true true (some ⟨800, 400⟩)
        = some (.radar ⟨400, 400⟩) := by
  constructor
  · by_cases h : sizing.width > sizing.height
    · simp [renderEffect, h, Nat.min_eq_right (le_of_lt h)]
    · simp [renderEffect, h, Nat.min_eq_left (not_lt.mp h)]
  · rfl

/-- Claim C6: for each recognized chart type, when the container has non-zero
width and height the export dimensions handed to the image-download utility
are exactly three times the on-screen render dimensions (container box for
scatter and bar, min-square for radar); in particular a radar chart in an
800x400 container exports at 1200x1200. -/
theorem claim6_export_three_x (vizType : String) (sizing : ChartSize)
    (chartTitle : Option String)
    (hv : vizType = "ScatterPlot" ∨ vizType = "BarChart" ∨ vizType = "RadarChart")
    (hw : sizing.width ≠ 0) (hh : sizing.height ≠ 0) :
    (∃ call, renderEffect vizType true true (some sizing) = some call
      ∧ (handleDownloadImage vizType (some sizing) chartTitle).width
          = some (call.size.width * 3)
      ∧ (handleDownloadImage vizType (some sizing) chartTitle).height
          = some (call.size.height * 3))
    ∧ handleDownloadImage "RadarChart" (some ⟨800, 400⟩) none
        = ⟨some 1200, some 1200, "chart"⟩ := by
  refine ⟨?_, rfl⟩
  rcases hv with hv | hv | hv
  · subst hv
    exact ⟨.scatter ⟨sizing.width, sizing.height⟩, by simp [renderEffect],
      by simp [handleDownloadImage, hw, DrawCall.size],
      by simp [handleDownloadImage, hh, DrawCall.size]⟩
  · subst hv
    exact ⟨.bar ⟨sizing.width, sizing.height⟩, by simp [renderEffect],
      by simp [handleDownloadImage, hw, DrawCall.size],
      by simp [handleDownloadImage, hh, DrawCall.size]⟩
  · subst hv
    by_cases h : sizing.width > sizing.height
    · exact ⟨.radar ⟨sizing.height, sizing.height⟩, by simp [renderEffect, h],
        by simp [handleDownloadImage, h, DrawCall.size],
        by simp [handleDownloadImage, h, DrawCall.size]⟩
    · exact ⟨.radar ⟨sizing.width, sizing.width⟩, by simp [renderEffect, h],
        by simp [handleDownloadImage, h, DrawCall.size],
        by simp [handleDownloadImage, h, DrawCall.size]⟩

/-- Claim C7 counterexample: for a radar chart whose attached container
measures 0x0 (no measurable size), the export dimensions are computed anyway —
`handleDownloadImage` passes `width = height = 0` (i.e. `0 * 3`) to the
download utility instead of leaving them undefined, contradicting the claim
that a zero measurement always yields undefined dimensions. -/
theorem claim7_counterexample :
    (handleDownloadImage "RadarChart" (some ⟨0, 0⟩) none).width ≠ none
    ∧ (handleDownloadImage "RadarChart" (some ⟨0, 0⟩) none).width = some 0
    ∧ (handleDownloadImage "RadarChart" (some ⟨0, 0⟩) none).height = some 0 := by
  refine ⟨?_, rfl, rfl⟩
  intro h
  simp [handleDownloadImage] at h

/-- Claim C7 as amended: when no sizing node is attached the export width and
height are left undefined for every chart type; for non-radar chart types a
zero width or height measurement leaves the corresponding dimension
undefined; but a radar chart with an attached sizing node always computes
both dimensions (three times the min-square side, even when that is zero). -/
theorem claim7_amended (vizType : String) (sizing : ChartSize)
    (chartTitle : Option String) :
    (handleDownloadImage vizType none chartTitle).width = none
    ∧ (handleDownloadImage vizType none chartTitle).height = none
    ∧ (vizType ≠ "RadarChart" → sizing.width = 0 →
        (handleDownloadImage vizType (some sizing) chartTitle).width = none)
    ∧ (vizType ≠ "RadarChart" → sizing.height = 0 →
        (handleDownloadImage vizType (some sizing) chartTitle).height = none)
    ∧ (handleDownloadImage "RadarChart" (some sizing) chartTitle).width
        = some (min sizing.width sizing.height * 3)
    ∧ (handleDownloadImage "RadarChart" (some sizing) chartTitle).height
        = some (min sizing.width sizing.height * 3) := by
  refine ⟨rfl, rfl, ?_, ?_, ?_, ?_⟩
  · intro hvt hzero
    simp [handleDownloadImage, hvt, hzero]
  · intro hvt hzero
    simp [handleDownloadImage, hvt, hzero]
  · by_cases h : sizing.width > sizing.height
    · simp [handleDownloadImage, h, Nat.min_eq_right (le_of_lt h)]
    · simp [handleDownloadImage, h, Nat.min_eq_left (not_lt.mp h)]
  · by_cases h : sizing.width > sizing.height
    · simp [handleDownloadImage, h, Nat.min_eq_right (le_of_lt h)]
    · simp [handleDownloadImage, h, Nat.min_eq_left (not_lt.mp h)]

/-- Witness for the amended claim C7 at concrete inputs: a bar chart over a
0x5 container gets an undefined export width, while a radar chart over the
same container gets the computed width 0. -/
theorem claim7_amended_witness :
    (handleDownloadImage "BarChart" (some ⟨0, 5⟩) none).width = none
    ∧ (handleDownloadImage "RadarChart" (some ⟨0, 5⟩) none).width = some 0 := by
  have h := claim7_amended "BarChart" ⟨0, 5⟩ none
  have h2 := claim7_amended "RadarChart" ⟨0, 5⟩ none
  exact ⟨h.2.2.1 (by decide) rfl, by simpa using h2.2.2.2.2.1⟩

/-- Claim C8: when the chart-type tag is none of the three recognized values,
the render effect invokes none of the chart-drawing primitives and raises no
error — it evaluates to `none`, a silent no-op, for any ref-attachment state
and any container measurement. -/
theorem claim8_unrecognized_silent_noop (vizType : String)
    (svgNodeAttached tooltipNodeAttached : Bool) (sizingNode : Option ChartSize)
    (h1 : vizType ≠ "ScatterPlot") (h2 : vizType ≠ "BarChart")
    (h3 : vizType ≠ "RadarChart") :
    renderEffect vizType svgNodeAttached tooltipNodeAttached sizingNode = none := by
  cases sizingNode with
  | none => simp [renderEffect]
  | some sizing => simp [renderEffect, h1, h2, h3]

/-- Witness for claim C8: the unrecognized tag `"PieChart"` draws nothing even
with all refs attached and a measurable container. -/
theorem claim8_witness :
    renderEffect "PieChart" true true (some ⟨800, 400⟩) = none :=
  claim8_unrecognized_silent_noop "PieChart" true true (some ⟨800, 400⟩)
    (by decide) (by decide) (by decide)

/-- The spec's concrete scenario record's metrics node: viability 5,
attractiveness 7, and an `rca` below 1. -/
def sampleNode : FactorsNode := ⟨some 5, some 7, some 0⟩

/-- The spec's concrete scenario record. -/
def sampleIndustry : JordanIndustry :=
  ⟨some "A1", some "Tech", some "soft", some "desc",
    some ⟨some [some ⟨some sampleNode⟩]⟩⟩

/-- A trivial selection callback for concrete evaluations. -/
def sampleCallback : TreeNode → Unit := fun _ => ()

/-- The spec's concrete scenario input with `selectedId = "A1"`. -/
def sampleInput : Input Unit := ⟨[sampleIndustry], "A1", sampleCallback⟩

/-- Witness for claim C2 at the concrete scenario: the sample record's `rca`
is 0, so its point is filled with the below-average base color at alpha 0.5,
and the point appears in the transformer's output. -/
theorem claim2_witness :
    (mkDatum sampleInput.id sampleInput.setSelectedIndustry sampleIndustry).fill
        = rgba (if (0 : ℚ) < 1 then "#46899F" else "#E0B04E") (1/2)
    ∧ mkDatum sampleInput.id sampleInput.setSelectedIndustry sampleIndustry
        ∈ transformScatterplotData sampleInput :=
  ⟨(claim2_fill_rule sampleInput sampleIndustry sampleNode 0 (by decide) rfl rfl).1,
   (claim2_fill_rule sampleInput sampleIndustry sampleNode 0 (by decide) rfl rfl).2.2
     (by simp [sampleInput])⟩

/-- Witness for claim C3 at the concrete scenario: the sample record's
`industryCode` equals the selected id `"A1"`, so its point is highlighted. -/
theorem claim3_witness :
    (mkDatum sampleInput.id sampleInput.setSelectedIndustry sampleIndustry).highlighted
      = true :=
  ((claim3_highlighted_iff sampleInput sampleIndustry (by decide)).1).mpr rfl

/-- Witness for claim C6 at the concrete scenario: a scatter plot over an
800x400 container renders at 800x400 and exports at 2400x1200. -/
theorem claim6_witness :
    ∃ call, renderEffect "ScatterPlot" true true (some ⟨800, 400⟩) = some call
      ∧ (handleDownloadImage "ScatterPlot" (some ⟨800, 400⟩) none).width
          = some (call.size.width * 3)
      ∧ (handleDownloadImage "ScatterPlot" (some ⟨800, 400⟩) none).height
          = some (call.size.height * 3) :=
  (claim6_export_three_x "ScatterPlot" ⟨800, 400⟩ none (Or.inl rfl)
    (by decide) (by decide)).1

/-- Witness for claim C9 at the concrete scenario: the sample record's tooltip
puts `description` after the Theme label, `keywords` after the SubTheme label,
`title` after the Description label, and the metrics after the Viability and
Attractiveness labels. -/
theorem claim9_witness :
    (mkDatum "A1" sampleCallback sampleIndustry).x = 5
    ∧ (mkDatum "A1" sampleCallback sampleIndustry).y = 7
    ∧ (mkDatum "A1" sampleCallback sampleIndustry).tooltipContent =
        "<strong>Theme:</strong> " ++ "desc" ++
        "<br /><strong>SubTheme:</strong> " ++ "soft" ++
        "<br /><strong>Description:</strong> " ++ "Tech" ++
        "<br /><strong>Viability:</strong> " ++ toString (5 : ℚ) ++
        "<br /><strong>Attractiveness:</strong> " ++ toString (7 : ℚ) :=
  claim9_tooltip_cross_wiring "A1" sampleCallback sampleIndustry
    "Tech" "soft" "desc" sampleNode 5 7 rfl rfl rfl rfl rfl rfl

end LabProject
